import Mathlib

/-!
Verification of the reconciliation and renewal-orchestration core of
rancher-auto-certs (app/main.py), shallow-embedded in Lean.

Conventions of the embedding:
- Python strings are Lean `String`; `str.strip()` is `pyStrip` (defined over the
  character list so that it evaluates by kernel reduction).
- `datetime` values are integer timestamps in seconds; `timedelta.days` floors the
  difference to whole days, which is `Int.fdiv _ 86400`.
- `datetime.strptime` is passed in as a parameter `strptime : String -> Option Int`
  (it is a Python library call, not repository code): `some` is a successful parse,
  `none` is a raised `ValueError`.
- Fallible code returns `Except String`; a `.error` value models a raised exception.
- External collaborators (the openssl subprocess, acme_tiny, the Rancher store) are
  modelled by outcome parameters (`StepOutcome`, `fetch`, `mk`): the embedding tracks
  what the orchestration code itself does on each outcome.
-/

namespace RancherAutoCerts

/-- One entry of the `certs` list of config/config.yml: a desired certificate. -/
structure CertConfig where
  name : String
  domains : List String
deriving DecidableEq, Repr

/-- The YAML document loaded from config/config.yml (main.py line 112), before
validation.  Optional fields model the Python `key in config` membership tests. -/
structure RawConfig where
  ca : Option String
  ca_directory : Option String
  chain : Option String
  account_key : String
  acme_dir : String
  key_length : Nat
  certs : List CertConfig
deriving DecidableEq, Repr

/-- One certificate as returned by the Rancher API (rancher_get_certs, lines 24-29).
`selfLink` is the `links.self` update reference read at line 167. -/
structure RancherCert where
  name : String
  subjectAlternativeNames : List String
  expiresAt : String
  selfLink : String
deriving DecidableEq, Repr

/-- One element of the `to_do` work queue: the tuple
`(remaining_days, name, domains, link)` built at lines 164, 173 and 176. -/
structure ToDo where
  remaining_days : Int
  name : String
  domains : List String
  link : Option String
deriving DecidableEq, Repr

/-- Python `str.strip()`: drop leading and trailing whitespace.  Defined over the
character list so that it reduces on literals. -/
def pyStrip (s : String) : String :=
  ⟨((s.data.dropWhile Char.isWhitespace).reverse.dropWhile Char.isWhitespace).reverse⟩

/-- load_config (main.py lines 109-128): reject a config that has both `ca` and
`ca_directory` (line 115-116), then strip every certificate name and domain
(lines 123-126).  The deprecation warnings for `ca` and `chain` only log. -/
def load_config (raw : RawConfig) : Except String RawConfig :=
  if raw.ca.isSome && raw.ca_directory.isSome then
    .error "The config should have either ca_directory or ca (deprecated) but not both."
  else
    .ok { raw with
          certs := raw.certs.map fun c =>
            { name := pyStrip c.name, domains := c.domains.map pyStrip } }

/-- contains_sublist (main.py lines 131-135): walk `sublst`, returning False at the
first element that is not in `lst`, else True. -/
def contains_sublist (lst : List String) : List String → Bool
  | [] => true
  | e :: rest => if lst.contains e then contains_sublist lst rest else false

/-- The dictionary `rancher_certs_by_name` built at lines 144-146 (keys are stripped
names, a later certificate overwrites an earlier one with the same key) combined
with the membership test / lookup of lines 162 and 166: the last certificate whose
stripped name equals `name`, if any. -/
def rancher_certs_by_name (certs : List RancherCert) (name : String) : Option RancherCert :=
  (certs.filter fun rc => pyStrip rc.name == name).getLast?

/-- The value of `(cert_exp - now).days` at line 170: Python `timedelta.days` is the
difference floored to whole days (timestamps are in seconds here). -/
def remaining_days (cert_exp now : Int) : Int :=
  Int.fdiv (cert_exp - now) 86400

/-- The body of the per-certificate loop of check_certs (main.py lines 159-176):
the work item (if any) contributed by one config entry, or the ValueError raised by
`datetime.datetime.strptime` at line 169 (modelled by `strptime` returning `none`). -/
def classify (rancher : List RancherCert) (strptime : String → Option Int) (now : Int)
    (c : CertConfig) : Except String (Option ToDo) :=
  match rancher_certs_by_name rancher c.name with
  | none => .ok (some ⟨0, c.name, c.domains, none⟩)
  | some rc =>
    if contains_sublist rc.subjectAlternativeNames c.domains then
      match strptime rc.expiresAt with
      | none => .error "time data does not match format"
      | some cert_exp =>
        if remaining_days cert_exp now < 30 then
          .ok (some ⟨remaining_days cert_exp now, c.name, c.domains, some rc.selfLink⟩)
        else
          .ok none
    else
      .ok (some ⟨0, c.name, c.domains, some rc.selfLink⟩)

/-- The whole loop of lines 159-176: the `to_do` list before sorting.  Each config
entry appends the item `classify` produces for it (zero or one items); a strptime
error aborts the loop and propagates. -/
def build_to_do (rancher : List RancherCert) (strptime : String → Option Int) (now : Int) :
    List CertConfig → Except String (List ToDo)
  | [] => .ok []
  | c :: rest => do
    let item ← classify rancher strptime now c
    let restItems ← build_to_do rancher strptime now rest
    pure (item.toList ++ restItems)

/-! Python comparison of the queue tuples.  `to_do.sort()` at line 179 sorts the
tuples `(remaining_days, name, domains, link)` by Python's lexicographic tuple
order: elementwise, the first non-equal component decides.  Strings compare by
code point, lists of strings again lexicographically.  Comparing `None` with a
string would raise TypeError, but two queue entries that agree on
`remaining_days`, `name` and `domains` always carry the same `link` (both are
computed from the same dictionary entry for that name), so that comparison is
unreachable; `optLtBy` puts `none` first, which never influences a reachable
comparison.  All comparison functions are structurally recursive so they evaluate
by kernel reduction. -/

/-- Python `<` on characters (code points). -/
def charLtB (a b : Char) : Bool := decide (a < b)

/-- Python lexicographic `<` on lists, given `<` on elements (equality of elements
is "neither smaller"): a strict prefix is smaller. -/
def listLtBy (lt : α → α → Bool) : List α → List α → Bool
  | [], [] => false
  | [], _ :: _ => true
  | _ :: _, [] => false
  | a :: as, b :: bs => if lt a b then true else if lt b a then false else listLtBy lt as bs

/-- Order on the optional update link with `none` first (see the header comment:
the `none`-versus-`some` case is unreachable in the queue). -/
def optLtBy (lt : α → α → Bool) : Option α → Option α → Bool
  | none, none => false
  | none, some _ => true
  | some _, none => false
  | some a, some b => lt a b

/-- Python `<` on strings: lexicographic by code point. -/
def strLt (a b : String) : Bool := listLtBy charLtB a.data b.data

/-- Python `<` on a pair, given `<` on the components: the first component decides
unless the two first components are equal (neither smaller). -/
def prodLtBy (ltA : α → α → Bool) (ltB : β → β → Bool) (x y : α × β) : Bool :=
  if ltA x.1 y.1 then true else if ltA y.1 x.1 then false else ltB x.2 y.2

/-- Python `<` on integers. -/
def intLtB (a b : Int) : Bool := decide (a < b)

/-- The queue entry viewed as the Python tuple `(remaining_days, name, domains, link)`
that `to_do.sort()` compares (line 156, line 179). -/
def toDoKey (t : ToDo) : Int × (String × (List String × Option String)) :=
  (t.remaining_days, (t.name, (t.domains, t.link)))

/-- Python `<` on the queue tuples: lexicographic over
`(remaining_days, name, domains, link)`. -/
def toDoLt (a b : ToDo) : Bool :=
  prodLtBy intLtB (prodLtBy strLt (prodLtBy (listLtBy strLt) (optLtBy strLt)))
    (toDoKey a) (toDoKey b)

/-- The non-strict order used to state sortedness of the queue. -/
def toDoLe (a b : ToDo) : Bool := !(toDoLt b a)

theorem charLtB_asymm (x y : Char) (h : charLtB x y = true) : charLtB y x = false := by
  simp only [charLtB, decide_eq_true_eq] at h
  simpa [charLtB] using lt_asymm h

theorem charLtB_trans (x y z : Char) (h1 : charLtB x y = true) (h2 : charLtB y z = true) :
    charLtB x z = true := by
  simp only [charLtB, decide_eq_true_eq] at h1 h2 ⊢
  exact lt_trans h1 h2

theorem charLtB_conn (x y : Char) (h1 : charLtB x y = false) (h2 : charLtB y x = false) :
    x = y := by
  simp only [charLtB, decide_eq_false_iff_not] at h1 h2
  exact le_antisymm (not_lt.mp h2) (not_lt.mp h1)

theorem listLtBy_asymm (lt : α → α → Bool)
    (hasym : ∀ x y, lt x y = true → lt y x = false) :
    ∀ a b : List α, listLtBy lt a b = true → listLtBy lt b a = false := by
  intro a
  induction a with
  | nil => intro b h; cases b <;> simp [listLtBy] at h ⊢
  | cons x as ih =>
    intro b h
    cases b with
    | nil => simp [listLtBy] at h
    | cons y bs =>
      simp only [listLtBy] at h ⊢
      by_cases hxy : lt x y = true
      · simp [hxy, hasym x y hxy]
      · rw [Bool.not_eq_true] at hxy
        by_cases hyx : lt y x = true
        · simp [hxy, hyx] at h
        · rw [Bool.not_eq_true] at hyx
          simp only [hxy, hyx, if_false, if_true] at h ⊢
          simp [ih bs h]

theorem listLtBy_conn (lt : α → α → Bool)
    (hconn : ∀ x y, lt x y = false → lt y x = false → x = y) :
    ∀ a b : List α, listLtBy lt a b = false → listLtBy lt b a = false → a = b := by
  intro a
  induction a with
  | nil => intro b h1 _; cases b with
    | nil => rfl
    | cons y bs => simp [listLtBy] at h1
  | cons x as ih =>
    intro b h1 h2
    cases b with
    | nil => simp [listLtBy] at h2
    | cons y bs =>
      simp only [listLtBy] at h1 h2
      by_cases hyx : lt y x = true
      · simp [hyx] at h2
      · rw [Bool.not_eq_true] at hyx
        by_cases hxy : lt x y = true
        · simp [hxy] at h1
        · rw [Bool.not_eq_true] at hxy
          simp only [hxy, hyx, if_false] at h1 h2
          have hxy2 := hconn x y hxy hyx
          have has := ih bs h1 h2
          rw [hxy2, has]

theorem listLtBy_trans (lt : α → α → Bool)
    (htrans : ∀ x y z, lt x y = true → lt y z = true → lt x z = true)
    (hconn : ∀ x y, lt x y = false → lt y x = false → x = y) :
    ∀ a b c : List α, listLtBy lt a b = true → listLtBy lt b c = true →
      listLtBy lt a c = true := by
  intro a
  induction a with
  | nil =>
    intro b c h1 h2
    cases b with
    | nil => simp [listLtBy] at h1
    | cons y bs =>
      cases c with
      | nil => simp [listLtBy] at h2
      | cons z cs => simp [listLtBy]
  | cons x as ih =>
    intro b c h1 h2
    cases b with
    | nil => simp [listLtBy] at h1
    | cons y bs =>
      cases c with
      | nil => simp [listLtBy] at h2
      | cons z cs =>
        simp only [listLtBy] at h1 h2 ⊢
        by_cases hxy : lt x y = true
        · by_cases hyz : lt y z = true
          · simp [htrans x y z hxy hyz]
          · rw [Bool.not_eq_true] at hyz
            by_cases hzy : lt z y = true
            · simp [hyz, hzy] at h2
            · rw [Bool.not_eq_true] at hzy
              have hyz2 := hconn y z hyz hzy
              subst hyz2
              simp [hxy]
        · rw [Bool.not_eq_true] at hxy
          by_cases hyx : lt y x = true
          · simp [hxy, hyx] at h1
          · rw [Bool.not_eq_true] at hyx
            have hxy2 := hconn x y hxy hyx
            subst hxy2
            simp only [hxy, hyx, if_false] at h1
            by_cases hxz : lt x z = true
            · simp [hxz]
            · rw [Bool.not_eq_true] at hxz
              by_cases hzx : lt z x = true
              · simp [hxz, hzx] at h2
              · rw [Bool.not_eq_true] at hzx
                simp only [hxz, hzx, if_false] at h2 ⊢
                exact ih bs cs h1 h2

theorem strLt_asymm (x y : String) (h : strLt x y = true) : strLt y x = false :=
  listLtBy_asymm charLtB charLtB_asymm x.data y.data h

theorem strLt_trans (x y z : String) (h1 : strLt x y = true) (h2 : strLt y z = true) :
    strLt x z = true :=
  listLtBy_trans charLtB charLtB_trans charLtB_conn x.data y.data z.data h1 h2

theorem strLt_conn (x y : String) (h1 : strLt x y = false) (h2 : strLt y x = false) :
    x = y := by
  have hd := listLtBy_conn charLtB charLtB_conn x.data y.data h1 h2
  cases x
  cases y
  exact congrArg String.mk hd

theorem optLtBy_asymm (lt : α → α → Bool)
    (hasym : ∀ x y, lt x y = true → lt y x = false) :
    ∀ a b : Option α, optLtBy lt a b = true → optLtBy lt b a = false := by
  intro a b h
  cases a <;> cases b <;> simp [optLtBy] at h ⊢
  exact hasym _ _ h

theorem optLtBy_conn (lt : α → α → Bool)
    (hconn : ∀ x y, lt x y = false → lt y x = false → x = y) :
    ∀ a b : Option α, optLtBy lt a b = false → optLtBy lt b a = false → a = b := by
  intro a b h1 h2
  cases a <;> cases b <;> simp [optLtBy] at h1 h2 ⊢
  exact hconn _ _ h1 h2

theorem optLtBy_trans (lt : α → α → Bool)
    (htrans : ∀ x y z, lt x y = true → lt y z = true → lt x z = true) :
    ∀ a b c : Option α, optLtBy lt a b = true → optLtBy lt b c = true →
      optLtBy lt a c = true := by
  intro a b c h1 h2
  cases a <;> cases b <;> cases c <;> simp [optLtBy] at h1 h2 ⊢
  exact htrans _ _ _ h1 h2

theorem domLt_asymm (x y : List String) (h : listLtBy strLt x y = true) :
    listLtBy strLt y x = false :=
  listLtBy_asymm strLt strLt_asymm x y h

theorem domLt_trans (x y z : List String) (h1 : listLtBy strLt x y = true)
    (h2 : listLtBy strLt y z = true) : listLtBy strLt x z = true :=
  listLtBy_trans strLt strLt_trans strLt_conn x y z h1 h2

theorem domLt_conn (x y : List String) (h1 : listLtBy strLt x y = false)
    (h2 : listLtBy strLt y x = false) : x = y :=
  listLtBy_conn strLt strLt_conn x y h1 h2

theorem prodLtBy_asymm (ltA : α → α → Bool) (ltB : β → β → Bool)
    (hAa : ∀ x y, ltA x y = true → ltA y x = false)
    (hBa : ∀ x y, ltB x y = true → ltB y x = false) :
    ∀ p q : α × β, prodLtBy ltA ltB p q = true → prodLtBy ltA ltB q p = false := by
  rintro ⟨a, b⟩ ⟨c, d⟩ h
  simp only [prodLtBy] at h ⊢
  by_cases hac : ltA a c = true
  · simp [hac, hAa a c hac]
  · rw [Bool.not_eq_true] at hac
    by_cases hca : ltA c a = true
    · simp [hac, hca] at h
    · rw [Bool.not_eq_true] at hca
      simp only [hac, hca, if_false] at h ⊢
      simp [hBa b d h]

theorem prodLtBy_conn (ltA : α → α → Bool) (ltB : β → β → Bool)
    (hAc : ∀ x y, ltA x y = false → ltA y x = false → x = y)
    (hBc : ∀ x y, ltB x y = false → ltB y x = false → x = y) :
    ∀ p q : α × β, prodLtBy ltA ltB p q = false → prodLtBy ltA ltB q p = false → p = q := by
  rintro ⟨a, b⟩ ⟨c, d⟩ h1 h2
  simp only [prodLtBy] at h1 h2
  by_cases hac : ltA a c = true
  · simp [hac] at h1
  · rw [Bool.not_eq_true] at hac
    by_cases hca : ltA c a = true
    · simp [hca] at h2
    · rw [Bool.not_eq_true] at hca
      simp only [hac, hca, if_false] at h1 h2
      rw [hAc a c hac hca, hBc b d h1 h2]

theorem prodLtBy_trans (ltA : α → α → Bool) (ltB : β → β → Bool)
    (hAt : ∀ x y z, ltA x y = true → ltA y z = true → ltA x z = true)
    (hAc : ∀ x y, ltA x y = false → ltA y x = false → x = y)
    (hBt : ∀ x y z, ltB x y = true → ltB y z = true → ltB x z = true) :
    ∀ p q r : α × β, prodLtBy ltA ltB p q = true → prodLtBy ltA ltB q r = true →
      prodLtBy ltA ltB p r = true := by
  rintro ⟨a, b⟩ ⟨c, d⟩ ⟨e, f⟩ h1 h2
  simp only [prodLtBy] at h1 h2 ⊢
  by_cases hac : ltA a c = true
  · by_cases hce : ltA c e = true
    · simp [hAt a c e hac hce]
    · rw [Bool.not_eq_true] at hce
      by_cases hec : ltA e c = true
      · simp [hce, hec] at h2
      · rw [Bool.not_eq_true] at hec
        have hceq := hAc c e hce hec
        subst hceq
        simp [hac]
  · rw [Bool.not_eq_true] at hac
    by_cases hca : ltA c a = true
    · simp [hac, hca] at h1
    · rw [Bool.not_eq_true] at hca
      have haeq := hAc a c hac hca
      subst haeq
      simp only [hac, hca, if_false] at h1
      by_cases hae : ltA a e = true
      · simp [hae]
      · rw [Bool.not_eq_true] at hae
        by_cases hea : ltA e a = true
        · simp [hae, hea] at h2
        · rw [Bool.not_eq_true] at hea
          simp only [hae, hea, if_false] at h2 ⊢
          exact hBt b d f h1 h2

theorem intLtB_asymm (x y : Int) (h : intLtB x y = true) : intLtB y x = false := by
  simp only [intLtB, decide_eq_true_eq] at h
  simp only [intLtB, decide_eq_false_iff_not]
  omega

theorem intLtB_trans (x y z : Int) (h1 : intLtB x y = true) (h2 : intLtB y z = true) :
    intLtB x z = true := by
  simp only [intLtB, decide_eq_true_eq] at h1 h2 ⊢
  omega

theorem intLtB_conn (x y : Int) (h1 : intLtB x y = false) (h2 : intLtB y x = false) :
    x = y := by
  simp only [intLtB, decide_eq_false_iff_not] at h1 h2
  omega

theorem optLt_asymm (x y : Option String) (h : optLtBy strLt x y = true) :
    optLtBy strLt y x = false :=
  optLtBy_asymm strLt strLt_asymm x y h

theorem optLt_trans (x y z : Option String) (h1 : optLtBy strLt x y = true)
    (h2 : optLtBy strLt y z = true) : optLtBy strLt x z = true :=
  optLtBy_trans strLt strLt_trans x y z h1 h2

theorem optLt_conn (x y : Option String) (h1 : optLtBy strLt x y = false)
    (h2 : optLtBy strLt y x = false) : x = y :=
  optLtBy_conn strLt strLt_conn x y h1 h2

theorem toDoKey_inj (a b : ToDo) (h : toDoKey a = toDoKey b) : a = b := by
  cases a
  cases b
  simp only [toDoKey, Prod.mk.injEq] at h
  obtain ⟨h1, h2, h3, h4⟩ := h
  simp_all

theorem toDoLt_asymm (a b : ToDo) (h : toDoLt a b = true) : toDoLt b a = false :=
  prodLtBy_asymm intLtB _ intLtB_asymm
    (prodLtBy_asymm strLt _ strLt_asymm
      (prodLtBy_asymm (listLtBy strLt) _ domLt_asymm optLt_asymm))
    (toDoKey a) (toDoKey b) h

theorem toDoLt_trans (a b c : ToDo) (h1 : toDoLt a b = true) (h2 : toDoLt b c = true) :
    toDoLt a c = true :=
  prodLtBy_trans intLtB _ intLtB_trans intLtB_conn
    (prodLtBy_trans strLt _ strLt_trans strLt_conn
      (prodLtBy_trans (listLtBy strLt) _ domLt_trans domLt_conn optLt_trans))
    (toDoKey a) (toDoKey b) (toDoKey c) h1 h2

theorem toDoLt_conn (a b : ToDo) (h1 : toDoLt a b = false) (h2 : toDoLt b a = false) :
    a = b :=
  toDoKey_inj a b
    (prodLtBy_conn intLtB _ intLtB_conn
      (prodLtBy_conn strLt _ strLt_conn
        (prodLtBy_conn (listLtBy strLt) _ domLt_conn optLt_conn))
      (toDoKey a) (toDoKey b) h1 h2)

theorem toDoLe_total (a b : ToDo) : toDoLe a b = true ∨ toDoLe b a = true := by
  by_cases h : toDoLt b a = true
  · right
    simp [toDoLe, toDoLt_asymm b a h]
  · left
    simp only [Bool.not_eq_true] at h
    simp [toDoLe, h]

theorem toDoLe_trans (a b c : ToDo) (h1 : toDoLe a b = true) (h2 : toDoLe b c = true) :
    toDoLe a c = true := by
  simp only [toDoLe, Bool.not_eq_true', Bool.not_eq_true] at h1 h2 ⊢
  by_cases hca : toDoLt c a = true
  · by_cases hab : toDoLt a b = true
    · have := toDoLt_trans c a b hca hab
      rw [this] at h2
      exact absurd h2 (by simp)
    · rw [Bool.not_eq_true] at hab
      have hab2 := toDoLt_conn a b hab h1
      subst hab2
      rw [hca] at h2
      exact absurd h2 (by simp)
  · rw [Bool.not_eq_true] at hca
    exact hca

/-- The relation by which `to_do.sort()` (line 179) orders the queue: ascending
with respect to Python tuple comparison. -/
def toDoR (a b : ToDo) : Prop := toDoLe a b = true

instance : DecidableRel toDoR := fun a b => inferInstanceAs (Decidable (toDoLe a b = true))

/-- to_do.sort() at line 179.  Python sorts stably and ascending; by `toDoLt_conn`
two entries that neither precede each other are equal, so every ascending sort of
the same list produces the same result and insertion sort models the builtin sort
exactly. -/
def sort_to_do (l : List ToDo) : List ToDo := List.insertionSort toDoR l

/-- The sorted work queue of one check_certs pass (lines 156-179), or the error
that aborted the loop. -/
def check_certs_to_do (rancher : List RancherCert) (strptime : String → Option Int)
    (now : Int) (certs : List CertConfig) : Except String (List ToDo) :=
  (build_to_do rancher strptime now certs).map sort_to_do

/-- Outcome of a call to an external collaborator (openssl, acme_tiny, Rancher):
`ok` returns normally, `fail` raises. -/
inductive StepOutcome
  | ok
  | fail
deriving DecidableEq, Repr

/-- The transient on-disk artifacts of one make_cert attempt: the private key file
(line 65), the CSR file (line 66) and the SAN config file (line 78). -/
inductive TmpFile
  | privateKey
  | csr
  | sanConfig
deriving DecidableEq, Repr

/-- The CSR request issued by make_cert (lines 75-85): the `-subj` argument, the
`-reqexts` section name (if any) and the content of the `-config` file (if any). -/
structure CsrRequest where
  subj : String
  reqexts : Option String
  config : Option String
deriving DecidableEq, Repr

/-- CSR construction, lines 75-85.  One domain: plain request with subject
`/CN=<domain>` (line 76).  Otherwise: blank subject `/`, a `[SAN]` section holding
`subjectAltName=DNS:...` appended to the base /etc/ssl/openssl.cnf template
(lines 80-84), referenced through `-reqexts SAN` (line 85). -/
def csr_request (base : String) : List String → CsrRequest
  | [d] => { subj := "/CN=" ++ d, reqexts := none, config := none }
  | ds => { subj := "/", reqexts := some "SAN",
            config := some (base ++ "\n[SAN]\nsubjectAltName=DNS:"
              ++ String.intercalate ",DNS:" ds ++ "\n") }

/-- What one make_cert attempt left behind: its result, the transient files still
on disk when it returned or raised, and the CSR request it issued (if reached). -/
structure MakeCertResult where
  result : Except String Unit
  disk : List TmpFile
  csr : Option CsrRequest
deriving Repr

/-- make_cert from the signing call on (lines 92-106): on a signing failure the
CSR file is still on disk; on success the CSR file is removed (line 101) before
rancher_save_cert runs (line 106). -/
def after_csr (req : CsrRequest) (disk : List TmpFile) (sign save : StepOutcome) :
    MakeCertResult :=
  match sign with
  | .fail => ⟨.error "SigningFailed", disk, some req⟩
  | .ok =>
    let disk2 := disk.erase TmpFile.csr
    match save with
    | .fail => ⟨.error "StoreUnavailable", disk2, some req⟩
    | .ok => ⟨.ok (), disk2, some req⟩

/-- make_cert (main.py lines 59-106), tracking the transient files on disk.
Steps, in source order: reject an empty domain list (line 62); generate the
private key file (line 69); generate the CSR (lines 75-85), in the multi-domain
case after writing the SAN config file (lines 78-84), then delete the SAN config
file (line 87); delete the private key file (line 90); sign (line 98); delete the
CSR file (line 101); save to Rancher (line 106).  There is no try/finally: a
failing step propagates immediately and the deletions after it do not run. -/
def make_cert (base : String) (domains : List String) (csrGen sign save : StepOutcome) :
    MakeCertResult :=
  if domains.length < 1 then ⟨.error "No domains for certificate", [], none⟩
  else
    let disk := [TmpFile.privateKey]
    if domains.length == 1 then
      match csrGen with
      | .fail => ⟨.error "OpenSSL Error", disk, none⟩
      | .ok =>
        after_csr (csr_request base domains)
          ((disk ++ [TmpFile.csr]).erase TmpFile.privateKey) sign save
    else
      let disk2 := disk ++ [TmpFile.sanConfig]
      match csrGen with
      | .fail => ⟨.error "OpenSSL Error", disk2, none⟩
      | .ok =>
        after_csr (csr_request base domains)
          (((disk2 ++ [TmpFile.csr]).erase TmpFile.sanConfig).erase TmpFile.privateKey)
          sign save

/-- The renewal loop of check_certs (lines 180-181): run make_cert on each queue
entry in order; the first raised error aborts the remaining entries.  `mk` gives
the collaborator outcomes (csr generation, signing, save) for each entry. -/
def run_to_do (base : String) (mk : ToDo → StepOutcome × StepOutcome × StepOutcome) :
    List ToDo → Except String Unit
  | [] => .ok ()
  | t :: ts =>
    match (make_cert base t.domains (mk t).1 (mk t).2.1 (mk t).2.2).result with
    | .error e => .error e
    | .ok _ => run_to_do base mk ts

/-- check_certs (lines 138-183): fetch the Rancher certificates (line 142, `fetch`
is the outcome of rancher_get_certs), build the queue (lines 159-176), sort it
(line 179), renew in order (lines 180-181) and return the queue length (line 183). -/
def check_certs (fetch : Except String (List RancherCert)) (strptime : String → Option Int)
    (now : Int) (base : String) (mk : ToDo → StepOutcome × StepOutcome × StepOutcome)
    (certs : List CertConfig) : Except String Nat := do
  let rancher ← fetch
  let td ← build_to_do rancher strptime now certs
  let queue := sort_to_do td
  let _ ← run_to_do base mk queue
  pure queue.length

/-- Observable network interaction of a pass.  The trace of `single_run` records
the GET of rancher_get_certs (line 142), the first network call of every pass:
all other network activity (signing, saving) happens after it, so an empty trace
means no network call occurred. -/
inductive RunEvent
  | networkCall
deriving DecidableEq, Repr

/-- single_run (lines 203-217): load and validate the config (line 209) and only
then run check_certs (line 213).  A load_config error propagates before the store
is contacted, hence the empty trace on that path. -/
def single_run (raw : RawConfig) (fetch : Except String (List RancherCert))
    (strptime : String → Option Int) (now : Int) (base : String)
    (mk : ToDo → StepOutcome × StepOutcome × StepOutcome) :
    List RunEvent × Except String Nat :=
  match load_config raw with
  | .error e => ([], .error e)
  | .ok config => ([RunEvent.networkCall], check_certs fetch strptime now base mk config.certs)

/-- One pass as seen by the daemon loop: the outcome of single_run (an error
carries the exception type name and message used at line 239) and how long the
pass took.  The duration is never consulted: the sleep is fixed. -/
structure PassResult where
  outcome : Except (String × String) Nat
  duration : Nat
deriving Repr

/-- What one daemon iteration emits to its collaborators (datadog events, service
checks, time.sleep). -/
inductive DaemonEvent
  | eventSuccess (nbCerts : Nat)
  | eventFailure (excType : String) (msg : String)
  | serviceCheckOK
  | serviceCheckCritical
  | sleepSeconds (n : Nat)
deriving DecidableEq, Repr

/-- The body of the daemon loop (lines 226-243): try single_run; on success report
a success event with the count and an OK service check (lines 229-234); on any
exception report a failure event with the exception type and message and a
CRITICAL service check (lines 235-242); in both cases sleep 24*60*60 seconds
(line 243).  The body returns normally for every outcome: the loop never exits. -/
def daemon_iteration (p : PassResult) : List DaemonEvent :=
  match p.outcome with
  | .ok n => [.eventSuccess n, .serviceCheckOK, .sleepSeconds (24 * 60 * 60)]
  | .error (t, m) => [.eventFailure t m, .serviceCheckCritical, .sleepSeconds (24 * 60 * 60)]

/-- The daemon loop (lines 226-243) run over a finite prefix of pass outcomes:
every pass is processed, whatever the previous outcomes were. -/
def daemon_run : List PassResult → List DaemonEvent
  | [] => []
  | p :: ps => daemon_iteration p ++ daemon_run ps

instance : IsTotal ToDo toDoR := ⟨toDoLe_total⟩

instance : IsTrans ToDo toDoR := ⟨toDoLe_trans⟩

/-- Concrete stand-ins used by the witnesses: a strptime that fails on every
input, one that parses the literal EXP to ten days (in seconds), and collaborator
outcomes that always succeed. -/
def strp0 : String → Option Int := fun _ => none

def strpEx : String → Option Int := fun s => if s = "EXP" then some 864000 else none

def mk0 : ToDo → StepOutcome × StepOutcome × StepOutcome := fun _ => (.ok, .ok, .ok)

/-- Membership reading of the loop condition at line 133. -/
theorem contains_sublist_iff_subset (lst sub : List String) :
    contains_sublist lst sub = true ↔ ∀ e ∈ sub, e ∈ lst := by
  induction sub with
  | nil => simp [contains_sublist]
  | cons e rest ih =>
    by_cases he : e ∈ lst
    · have hc : lst.contains e = true := by simpa using he
      simp [contains_sublist, hc, ih, he]
    · have hc : lst.contains e = false := by simpa using he
      simp [contains_sublist, hc, he]

/-- C5: the domain-coverage check of check_certs (contains_sublist, lines 131-135,
applied at line 168) is a pure subset test: it is true exactly when every desired
domain occurs among the observed subjectAlternativeNames, extra observed names are
tolerated, and its value is invariant under any permutation of either list. -/
theorem contains_sublist_subset_and_perm_invariant :
    (∀ lst sub : List String, contains_sublist lst sub = true ↔ ∀ e ∈ sub, e ∈ lst) ∧
    (∀ lst lst2 sub sub2 : List String, lst.Perm lst2 → sub.Perm sub2 →
      contains_sublist lst sub = contains_sublist lst2 sub2) := by
  refine ⟨contains_sublist_iff_subset, ?_⟩
  have key : ∀ lst lst2 sub sub2 : List String, lst.Perm lst2 → sub.Perm sub2 →
      contains_sublist lst sub = true → contains_sublist lst2 sub2 = true := by
    intro lst lst2 sub sub2 hl hs h
    rw [contains_sublist_iff_subset] at h ⊢
    intro e he
    exact hl.mem_iff.mp (h e (hs.mem_iff.mpr he))
  intro lst lst2 sub sub2 hl hs
  cases h : contains_sublist lst sub with
  | true => exact (key lst lst2 sub sub2 hl hs h).symm
  | false =>
    cases h2 : contains_sublist lst2 sub2 with
    | true => rw [key lst2 lst sub2 sub hl.symm hs.symm h2] at h; exact h.symm
    | false => rfl

/-- C5 witness: the spec example, desired [a,b] against observed [b,a,c], and the
permutation invariance applied to it at concrete permutations. -/
theorem contains_sublist_witness :
    contains_sublist ["b.com", "a.com", "c.com"] ["a.com", "b.com"] = true ∧
    contains_sublist ["b.com", "a.com", "c.com"] ["a.com", "b.com"]
      = contains_sublist ["a.com", "b.com", "c.com"] ["b.com", "a.com"] := by
  constructor
  · exact (contains_sublist_subset_and_perm_invariant.1
      ["b.com", "a.com", "c.com"] ["a.com", "b.com"]).mpr (by decide)
  · exact contains_sublist_subset_and_perm_invariant.2
      ["b.com", "a.com", "c.com"] ["a.com", "b.com", "c.com"]
      ["a.com", "b.com"] ["b.com", "a.com"] (by decide) (by decide)

/-- C10: contains_sublist lst [] is true for every lst, so a desired certificate
with an empty domain list that is matched by name is fully covering and takes the
Expiring/Healthy branch (lines 168-173) - never the Domain-gap branch (line 176);
make_cert's empty-domain rejection (line 62) is therefore reachable only through
work items of the Absent or Expiring classifications. -/
theorem empty_domains_always_covering :
    (∀ lst : List String, contains_sublist lst [] = true) ∧
    (∀ (rancher : List RancherCert) (strptime : String → Option Int) (now : Int)
      (c : CertConfig) (rc : RancherCert), c.domains = [] →
      rancher_certs_by_name rancher c.name = some rc →
      classify rancher strptime now c =
        (match strptime rc.expiresAt with
         | none => .error "time data does not match format"
         | some cert_exp =>
           if remaining_days cert_exp now < 30 then
             .ok (some ⟨remaining_days cert_exp now, c.name, c.domains, some rc.selfLink⟩)
           else .ok none)) ∧
    (∀ (base : String) (csrGen sign save : StepOutcome),
      (make_cert base [] csrGen sign save).result = .error "No domains for certificate") := by
  refine ⟨fun lst => rfl, ?_, fun base csrGen sign save => rfl⟩
  intro rancher strptime now c rc hdom hm
  simp only [classify, hm, hdom, contains_sublist, if_true]

/-- C10 witness: a matched certificate with an empty desired domain list is
classified through the Expiring branch. -/
theorem empty_domains_witness :
    contains_sublist ["x.com"] [] = true ∧
    classify [⟨"site", ["x.com"], "EXP", "LINK"⟩] strpEx 0 ⟨"site", []⟩
      = .ok (some ⟨10, "site", [], some "LINK"⟩) ∧
    (make_cert "" [] .ok .ok .ok).result = .error "No domains for certificate" := by
  refine ⟨empty_domains_always_covering.1 ["x.com"], ?_,
    empty_domains_always_covering.2.2 "" .ok .ok .ok⟩
  have h := empty_domains_always_covering.2.1 [⟨"site", ["x.com"], "EXP", "LINK"⟩]
    strpEx 0 ⟨"site", []⟩ ⟨"site", ["x.com"], "EXP", "LINK"⟩ rfl (by rfl)
  rw [h]
  rfl

/-- C3: a desired certificate matched by name and fully covering, whose expiry
parses, contributes exactly one work item with urgency remaining_days (the
floored day difference, possibly negative) when remaining_days < 30, and no work
item when remaining_days is at least 30 (lines 168-173). -/
theorem expiring_classification (rancher : List RancherCert)
    (strptime : String → Option Int) (now : Int) (c : CertConfig) (rc : RancherCert)
    (cert_exp : Int)
    (hm : rancher_certs_by_name rancher c.name = some rc)
    (hcov : contains_sublist rc.subjectAlternativeNames c.domains = true)
    (hp : strptime rc.expiresAt = some cert_exp) :
    (remaining_days cert_exp now < 30 →
      classify rancher strptime now c =
        .ok (some ⟨remaining_days cert_exp now, c.name, c.domains, some rc.selfLink⟩) ∧
      build_to_do rancher strptime now [c] =
        .ok [⟨remaining_days cert_exp now, c.name, c.domains, some rc.selfLink⟩]) ∧
    (30 ≤ remaining_days cert_exp now →
      classify rancher strptime now c = .ok none ∧
      build_to_do rancher strptime now [c] = .ok []) := by
  constructor
  · intro hlt
    have hcls : classify rancher strptime now c =
        .ok (some ⟨remaining_days cert_exp now, c.name, c.domains, some rc.selfLink⟩) := by
      simp [classify, hm, hcov, hp, hlt]
    refine ⟨hcls, ?_⟩
    simp only [build_to_do, hcls]
    rfl
  · intro hge
    have hcls : classify rancher strptime now c = .ok none := by
      simp [classify, hm, hcov, hp, not_lt.mpr hge]
    refine ⟨hcls, ?_⟩
    simp only [build_to_do, hcls]
    rfl

/-- C3 witness: a covering match expiring in ten days yields exactly the one work
item with urgency 10; one expiring in ten days against a 40-day threshold check is
exercised through the other branch with a distant expiry. -/
theorem expiring_classification_witness :
    classify [⟨"site", ["a.com"], "EXP", "LINK"⟩] strpEx 0 ⟨"site", ["a.com"]⟩
      = .ok (some ⟨10, "site", ["a.com"], some "LINK"⟩) ∧
    build_to_do [⟨"site", ["a.com"], "EXP", "LINK"⟩] strpEx 0 [⟨"site", ["a.com"]⟩]
      = .ok [⟨10, "site", ["a.com"], some "LINK"⟩] ∧
    classify [⟨"site", ["a.com"], "EXP", "LINK"⟩] strpEx (-5184000) ⟨"site", ["a.com"]⟩
      = .ok none := by
  have h1 := (expiring_classification [⟨"site", ["a.com"], "EXP", "LINK"⟩] strpEx 0
    ⟨"site", ["a.com"]⟩ ⟨"site", ["a.com"], "EXP", "LINK"⟩ 864000 (by rfl) (by decide)
    (by rfl)).1 (by decide)
  have h2 := (expiring_classification [⟨"site", ["a.com"], "EXP", "LINK"⟩] strpEx
    (-5184000) ⟨"site", ["a.com"]⟩ ⟨"site", ["a.com"], "EXP", "LINK"⟩ 864000 (by rfl)
    (by decide) (by rfl)).2 (by decide)
  exact ⟨h1.1, h1.2, h2.1⟩

/-- C4: a desired certificate whose name matches no observed certificate yields
exactly one work item with urgency 0 and no update link (lines 162-164); one that
is matched but not fully covering yields exactly one work item with urgency 0
carrying the observed links.self reference (lines 174-176). -/
theorem absent_and_domain_gap (rancher : List RancherCert)
    (strptime : String → Option Int) (now : Int) (c : CertConfig) :
    (rancher_certs_by_name rancher c.name = none →
      classify rancher strptime now c = .ok (some ⟨0, c.name, c.domains, none⟩) ∧
      build_to_do rancher strptime now [c] = .ok [⟨0, c.name, c.domains, none⟩]) ∧
    (∀ rc, rancher_certs_by_name rancher c.name = some rc →
      contains_sublist rc.subjectAlternativeNames c.domains = false →
      classify rancher strptime now c = .ok (some ⟨0, c.name, c.domains, some rc.selfLink⟩) ∧
      build_to_do rancher strptime now [c] = .ok [⟨0, c.name, c.domains, some rc.selfLink⟩]) := by
  constructor
  · intro hm
    have hcls : classify rancher strptime now c = .ok (some ⟨0, c.name, c.domains, none⟩) := by
      simp [classify, hm]
    refine ⟨hcls, ?_⟩
    simp only [build_to_do, hcls]
    rfl
  · intro rc hm hncov
    have hcls : classify rancher strptime now c
        = .ok (some ⟨0, c.name, c.domains, some rc.selfLink⟩) := by
      simp [classify, hm, hncov]
    refine ⟨hcls, ?_⟩
    simp only [build_to_do, hcls]
    rfl

/-- C4 witness: an absent certificate and a matched-but-non-covering certificate
at concrete inputs. -/
theorem absent_and_domain_gap_witness :
    classify [] strp0 0 ⟨"site", ["a.com"]⟩ = .ok (some ⟨0, "site", ["a.com"], none⟩) ∧
    classify [⟨"site", ["a.com"], "EXP", "LINK"⟩] strp0 0 ⟨"site", ["a.com", "b.com"]⟩
      = .ok (some ⟨0, "site", ["a.com", "b.com"], some "LINK"⟩) := by
  refine ⟨((absent_and_domain_gap [] strp0 0 ⟨"site", ["a.com"]⟩).1 (by rfl)).1, ?_⟩
  exact ((absent_and_domain_gap [⟨"site", ["a.com"], "EXP", "LINK"⟩] strp0 0
    ⟨"site", ["a.com", "b.com"]⟩).2 ⟨"site", ["a.com"], "EXP", "LINK"⟩ (by rfl) (by decide)).1

/-- A classification error anywhere in the config list makes the whole queue
construction error out. -/
theorem build_to_do_error_of_classify_error (rancher : List RancherCert)
    (strptime : String → Option Int) (now : Int) :
    ∀ (certs : List CertConfig) (c : CertConfig) (e : String), c ∈ certs →
      classify rancher strptime now c = .error e →
      ∃ e2, build_to_do rancher strptime now certs = .error e2 := by
  intro certs
  induction certs with
  | nil => intro c e h; exact absurd h (List.not_mem_nil c)
  | cons d rest ih =>
    intro c e hmem hc
    rcases List.mem_cons.mp hmem with h | h
    · subst h
      refine ⟨e, ?_⟩
      simp only [build_to_do, hc]
      rfl
    · cases hd : classify rancher strptime now d with
      | error e1 =>
        refine ⟨e1, ?_⟩
        simp only [build_to_do, hd]
        rfl
      | ok item =>
        obtain ⟨e2, h2⟩ := ih c e h hc
        refine ⟨e2, ?_⟩
        simp only [build_to_do, hd, h2]
        rfl

/-- C8: if any desired certificate is matched by name and fully covering but its
expiry timestamp fails to parse, check_certs raises and the whole pass aborts: no
count is returned, and since the error surfaces while the queue is still being
built (lines 159-176, before the renewal loop of lines 180-181), no work item is
processed and no later certificate is silently classified. -/
theorem parse_failure_aborts_pass (rancher : List RancherCert)
    (strptime : String → Option Int) (now : Int) (base : String)
    (mk : ToDo → StepOutcome × StepOutcome × StepOutcome)
    (certs : List CertConfig) (c : CertConfig) (rc : RancherCert)
    (hmem : c ∈ certs)
    (hm : rancher_certs_by_name rancher c.name = some rc)
    (hcov : contains_sublist rc.subjectAlternativeNames c.domains = true)
    (hp : strptime rc.expiresAt = none) :
    ∃ e, check_certs (.ok rancher) strptime now base mk certs = .error e := by
  have hcls : classify rancher strptime now c = .error "time data does not match format" := by
    simp [classify, hm, hcov, hp]
  obtain ⟨e2, h2⟩ := build_to_do_error_of_classify_error rancher strptime now certs c _ hmem hcls
  refine ⟨e2, ?_⟩
  have hred : check_certs (.ok rancher) strptime now base mk certs
      = Except.bind (build_to_do rancher strptime now certs)
          (fun td => Except.bind (run_to_do base mk (sort_to_do td))
            (fun _ => Except.ok (sort_to_do td).length)) := rfl
  rw [hred, h2]
  rfl

/-- C8 witness: one matched covering certificate with an unparseable expiry makes
the concrete pass return an error. -/
theorem parse_failure_witness :
    check_certs (.ok [⟨"site", ["a.com"], "BAD", "LINK"⟩]) strp0 0 "" mk0
      [⟨"site", ["a.com"]⟩] = .error "time data does not match format" := by
  obtain ⟨e, he⟩ := parse_failure_aborts_pass [⟨"site", ["a.com"], "BAD", "LINK"⟩]
    strp0 0 "" mk0 [⟨"site", ["a.com"]⟩] ⟨"site", ["a.com"]⟩
    ⟨"site", ["a.com"], "BAD", "LINK"⟩ (List.mem_singleton.mpr rfl) (by rfl) (by decide) rfl
  have : e = "time data does not match format" := by
    have hval : check_certs (.ok [⟨"site", ["a.com"], "BAD", "LINK"⟩]) strp0 0 "" mk0
        [⟨"site", ["a.com"]⟩] = .error "time data does not match format" := by rfl
    rw [hval] at he
    exact (Except.error.inj he).symm
  rw [← this]
  exact he

/-- C6: CSR construction (lines 75-85).  A single-domain work item produces a
plain request with subject CN=domain and no SAN extension; two or more domains
produce a blank subject, a -reqexts reference to the new SAN section, and a
config made of the base template with the section subjectAltName=DNS:...
appended, listing the domains as DNS entries in the given order. -/
theorem csr_construction :
    (∀ (base d : String), csr_request base [d] = ⟨"/CN=" ++ d, none, none⟩) ∧
    (∀ (base a b : String) (rest : List String), csr_request base (a :: b :: rest) =
      ⟨"/", some "SAN", some (base ++ "\n[SAN]\nsubjectAltName=DNS:"
        ++ String.intercalate ",DNS:" (a :: b :: rest) ++ "\n")⟩) ∧
    (∀ base a b : String, (csr_request base [a, b]).config =
      some (base ++ "\n[SAN]\nsubjectAltName=DNS:" ++ (a ++ ",DNS:" ++ b) ++ "\n")) := by
  refine ⟨fun base d => rfl, fun base a b rest => rfl, fun base a b => ?_⟩
  have hinter : String.intercalate ",DNS:" [a, b] = a ++ ",DNS:" ++ b := rfl
  show some (base ++ "\n[SAN]\nsubjectAltName=DNS:"
    ++ String.intercalate ",DNS:" [a, b] ++ "\n") = _
  rw [hinter]

/-- C7: a desired-state declaration containing both ca and ca_directory makes the
pass raise the configuration error with an empty network trace, i.e. before any
network call; a declaration with exactly one of the two passes validation. -/
theorem both_ca_fatal_before_network :
    (∀ (raw : RawConfig) (fetch : Except String (List RancherCert))
      (strptime : String → Option Int) (now : Int) (base : String)
      (mk : ToDo → StepOutcome × StepOutcome × StepOutcome),
      raw.ca.isSome = true → raw.ca_directory.isSome = true →
      single_run raw fetch strptime now base mk =
        ([], .error "The config should have either ca_directory or ca (deprecated) but not both.")) ∧
    (∀ raw : RawConfig,
      (raw.ca.isSome = true ∧ raw.ca_directory = none) ∨
        (raw.ca = none ∧ raw.ca_directory.isSome = true) →
      ∃ cfg, load_config raw = .ok cfg) := by
  constructor
  · intro raw fetch strptime now base mk h1 h2
    simp [single_run, load_config, h1, h2]
  · intro raw h
    have hcond : (raw.ca.isSome && raw.ca_directory.isSome) = false := by
      rcases h with ⟨h1, h2⟩ | ⟨h1, h2⟩ <;> simp [h1, h2]
    refine ⟨{ raw with certs := raw.certs.map fun c =>
      { name := pyStrip c.name, domains := c.domains.map pyStrip } }, ?_⟩
    unfold load_config
    split
    · rename_i hc
      rw [hcond] at hc
      exact absurd hc (by simp)
    · rfl

/-- C7 witness: a concrete config with both keys is rejected with no network
event; concrete configs with exactly one key are accepted. -/
theorem both_ca_witness :
    single_run ⟨some "CA", some "DIR", none, "ak", "ad", 2048, []⟩ (.ok []) strp0 0 "" mk0
      = ([], .error "The config should have either ca_directory or ca (deprecated) but not both.") ∧
    (∃ cfg, load_config ⟨some "CA", none, none, "ak", "ad", 2048, []⟩ = .ok cfg) ∧
    (∃ cfg, load_config ⟨none, some "DIR", none, "ak", "ad", 2048, []⟩ = .ok cfg) := by
  refine ⟨both_ca_fatal_before_network.1 _ (.ok []) strp0 0 "" mk0 rfl rfl, ?_, ?_⟩
  · exact both_ca_fatal_before_network.2 _ (Or.inl ⟨rfl, rfl⟩)
  · exact both_ca_fatal_before_network.2 _ (Or.inr ⟨rfl, rfl⟩)

/-- C9: each daemon iteration reports the pass outcome (success with the count, or
failure with the exception type and message) to the monitoring collaborator and
then sleeps exactly 24*60*60 seconds, whatever the outcome was and however long
the pass took; the loop body returns normally on a failed pass, so processing a
failing pass never prevents the following passes from running. -/
theorem daemon_pass_isolation :
    (∀ (n : Nat) (d : Nat), daemon_iteration ⟨.ok n, d⟩
      = [.eventSuccess n, .serviceCheckOK, .sleepSeconds 86400]) ∧
    (∀ (t m : String) (d : Nat), daemon_iteration ⟨.error (t, m), d⟩
      = [.eventFailure t m, .serviceCheckCritical, .sleepSeconds 86400]) ∧
    (∀ (p : PassResult) (ps : List PassResult),
      daemon_run (p :: ps) = daemon_iteration p ++ daemon_run ps) ∧
    (∀ (o : Except (String × String) Nat) (d d2 : Nat),
      daemon_iteration ⟨o, d⟩ = daemon_iteration ⟨o, d2⟩) := by
  refine ⟨fun n d => rfl, fun t m d => rfl, fun p ps => rfl, fun o d d2 => ?_⟩
  rcases o with ⟨t, m⟩ | n <;> rfl

/-- C1 as stated is false: make_cert has no try/finally, so on the
CSR-generation-failure exit path of this single-domain attempt the private key
file written at line 69 is still on disk when the exception of line 55
propagates (the deletion at line 90 never runs). -/
theorem make_cert_leak_counterexample :
    (make_cert "" ["example.com"] .fail .ok .ok).result = .error "OpenSSL Error" ∧
    (make_cert "" ["example.com"] .fail .ok .ok).disk = [TmpFile.privateKey] :=
  ⟨rfl, rfl⟩

/-- C1 amended: the transient artifacts are all deleted on the success path and
on the store-persist-failure path; but on a CSR-generation failure the private
key file remains on disk (with the SAN config file too in the multi-domain case),
and on a signing failure the CSR file remains on disk. -/
theorem make_cert_cleanup_per_path (base : String) (domains : List String)
    (h : domains ≠ []) :
    (make_cert base domains .ok .ok .ok).disk = [] ∧
    (make_cert base domains .ok .ok .fail).disk = [] ∧
    (∀ save, (make_cert base domains .ok .fail save).disk = [TmpFile.csr]) ∧
    (∀ sign save, TmpFile.privateKey ∈ (make_cert base domains .fail sign save).disk) := by
  rcases domains with _ | ⟨d, _ | ⟨b, rest⟩⟩
  · exact absurd rfl h
  · exact ⟨rfl, rfl, fun save => rfl, fun sign save => by simp [make_cert]⟩
  · exact ⟨rfl, rfl, fun save => rfl, fun sign save => by simp [make_cert]⟩

/-- C1 amended witness: the per-path cleanup characterization at a concrete
single-domain attempt. -/
theorem make_cert_cleanup_witness :
    (make_cert "" ["example.com"] .ok .ok .ok).disk = [] ∧
    (make_cert "" ["example.com"] .ok .ok .fail).disk = [] ∧
    (make_cert "" ["example.com"] .ok .fail .ok).disk = [TmpFile.csr] := by
  have h := make_cert_cleanup_per_path "" ["example.com"] (by simp)
  exact ⟨h.1, h.2.1, h.2.2.1 .ok⟩

/-- C2 as stated is false: both desired certificates are absent, so both work
items have urgency 0, and the config order is "bb" before "aa"; yet the queue
produced by check_certs orders "aa" first, because to_do.sort() compares the
whole tuples (urgency, name, domains, link) and breaks urgency ties by name, not
by insertion/config order. -/
theorem queue_order_counterexample :
    check_certs_to_do [] strp0 0 [⟨"bb", ["b.com"]⟩, ⟨"aa", ["a.com"]⟩]
      = .ok [⟨0, "aa", ["a.com"], none⟩, ⟨0, "bb", ["b.com"], none⟩] := rfl

/-- What an adjacent pair of a queue sorted by Python tuple order satisfies:
urgencies ascend, and an urgency tie is decided by the names (the earlier item's
name is not greater). -/
theorem toDoLe_proj (a b : ToDo) (h : toDoLe a b = true) :
    a.remaining_days ≤ b.remaining_days ∧
    (a.remaining_days = b.remaining_days → strLt b.name a.name = false) := by
  simp only [toDoLe, Bool.not_eq_true'] at h
  constructor
  · by_cases h1 : intLtB b.remaining_days a.remaining_days = true
    · simp [toDoLt, prodLtBy, toDoKey, h1] at h
    · rw [Bool.not_eq_true] at h1
      simp only [intLtB, decide_eq_false_iff_not] at h1
      omega
  · intro heq
    have h1 : intLtB b.remaining_days a.remaining_days = false := by
      simp [intLtB]
      omega
    have h2 : intLtB a.remaining_days b.remaining_days = false := by
      simp [intLtB]
      omega
    by_cases h3 : strLt b.name a.name = true
    · simp [toDoLt, prodLtBy, toDoKey, h1, h2, h3] at h
    · rwa [Bool.not_eq_true] at h3

/-- C2 amended: every queue check_certs produces is sorted ascending by Python
tuple comparison of (urgency, name, domains, link) - so urgencies are
nondecreasing, and two items of equal urgency are ordered by their names
(code-point order), not by config order. -/
theorem queue_sorted (rancher : List RancherCert) (strptime : String → Option Int)
    (now : Int) (certs : List CertConfig) (queue : List ToDo)
    (h : check_certs_to_do rancher strptime now certs = .ok queue) :
    queue.Pairwise (fun a b => toDoLe a b = true) ∧
    queue.Pairwise (fun a b => a.remaining_days ≤ b.remaining_days ∧
      (a.remaining_days = b.remaining_days → strLt b.name a.name = false)) := by
  have hsorted : queue.Pairwise (fun a b => toDoLe a b = true) := by
    cases htd : build_to_do rancher strptime now certs with
    | error e =>
      rw [check_certs_to_do, htd] at h
      exact absurd h (by simp [Except.map])
    | ok td =>
      rw [check_certs_to_do, htd] at h
      have hq : queue = sort_to_do td := by
        simpa [Except.map] using h.symm
      rw [hq]
      exact List.sorted_insertionSort toDoR td
  exact ⟨hsorted, hsorted.imp fun hab => toDoLe_proj _ _ hab⟩

/-- C2 amended witness: the sortedness characterization applied to a concrete
pass with two equal-urgency items. -/
theorem queue_sorted_witness :
    ([⟨0, "aa", ["a.com"], none⟩, ⟨0, "bb", ["b.com"], none⟩] : List ToDo).Pairwise
      (fun a b => a.remaining_days ≤ b.remaining_days ∧
        (a.remaining_days = b.remaining_days → strLt b.name a.name = false)) :=
  (queue_sorted [] strp0 0 [⟨"bb", ["b.com"]⟩, ⟨"aa", ["a.com"]⟩]
    [⟨0, "aa", ["a.com"], none⟩, ⟨0, "bb", ["b.com"], none⟩] (by rfl)).2

end RancherAutoCerts
